import Mathlib

/-
Shallow embedding of the xous-core kernel syscall dispatcher
(src/kernel/src/syscall.rs, function `handle`) and of the kernel
subsystems it calls into (memory manager, process table / system
services, server registry).  The dispatcher itself is translated
line-by-line from the source; the subsystem operations, whose code is
not part of the provided sources, are modelled from the spec and are
marked as such in their doc comments.

Machine integers: the target is 32-bit (RISC-V); `usize` arithmetic is
modelled on `Nat` with an explicit wrap modulus `USIZE_MOD = 2 ^ 32`
wherever the Rust code can overflow or underflow (release-build
wrapping semantics).  Bit-masking alignment checks `x & 0xfff != 0`
and `x & (PAGE_SIZE - 1) != 0` are rendered as `x % 0x1000 ≠ 0` and
`x % PAGE_SIZE ≠ 0`, which agree on `Nat` because the masks are
`2 ^ k - 1`.
-/

namespace Xous

/-- Page size of the target architecture (`PAGE_SIZE` in the kernel);
the heap syscalls hard-code the matching mask `0xfff` in syscall.rs. -/
def PAGE_SIZE : Nat := 4096

/-- Size in bytes of `usize` on the 32-bit target
(`mem::size_of::<usize>()`). -/
def USIZE_BYTES : Nat := 4

/-- Wrap modulus for 32-bit `usize` arithmetic. -/
def USIZE_MOD : Nat := 2 ^ 32

/-- Wrapping 32-bit addition, the release-build semantics of Rust
`a + b` on `usize`. -/
def wadd (a b : Nat) : Nat := (a + b) % USIZE_MOD

/-- Wrapping 32-bit subtraction, the release-build semantics of Rust
`a - b` on `usize`. -/
def wsub (a b : Nat) : Nat := (a % USIZE_MOD + (USIZE_MOD - b % USIZE_MOD)) % USIZE_MOD

/-- Elements visited by Rust `(lo..hi).step_by(step)`: `lo`, `lo+step`,
… while strictly below `hi`; empty when `lo ≥ hi`. -/
def stepBy (lo hi step : Nat) : List Nat :=
  (List.range ((hi - lo + step - 1) / step)).map (fun i => lo + i * step)

/-- Error taxonomy of `xous::Error` (spec §7). -/
inductive SysError where
  | BadAddress
  | BadAlignment
  | OutOfMemory
  | ProcessNotFound
  | ProcessNotChild
  | ServerNotFound
  | ServerExists
  | InvalidString
  | QueueFull
  | Timeout
  | AccessDenied
  | UseBeforeInit
  | InternalError
  | UnhandledSyscall
deriving DecidableEq, Repr

/-- Message payload variants of `xous::Message`; the payload contents
are abstracted to a single word, the variant tag is what the
dispatcher inspects. -/
inductive Message where
  | MutableBorrow (v : Nat)
  | ImmutableBorrow (v : Nat)
  | Scalar (v : Nat)
  | Move (v : Nat)
deriving DecidableEq, Repr

/-- Sender-tagged payload (`MessageEnvelope`). -/
structure MessageEnvelope where
  sender : Nat
  message : Message
deriving DecidableEq, Repr

/-- Page-aligned region handed back by `map_range`
(`xous::MemoryRange`): base address and size in bytes. -/
structure MemRange where
  base : Nat
  size : Nat
deriving DecidableEq, Repr

/-- Success results of `xous::Result` produced by the dispatcher. -/
inductive SysResult where
  | Ok
  | ResumeProcess
  | MemoryRange (r : MemRange)
  | Message (m : MessageEnvelope)
  | ThreadID (n : Nat)
  | ServerID (n : Nat)
  | ConnectionID (n : Nat)
deriving DecidableEq, Repr

/-- Outcome of one syscall: an ordinary success, an ordinary typed
error returned to the caller, or a fatal kernel invariant failure
(Rust `assert_ne!` / `.expect` abort). -/
inductive SysOut where
  | ok (r : SysResult)
  | err (e : SysError)
  | panic (msg : String)
deriving DecidableEq, Repr

/-- Observable kernel-internal actions emitted while a syscall runs,
in order.  `activate t c` records one invocation of
`activate_process_context` with target pid `t` and context `c`;
`zeroWords b n` records `write_bytes(0, n)` zeroing `n` usize words
from address `b`; `handPage a` records one `hand_page_to_user` call;
`mapRangeCall`, `reserveRange` and `unmapPage` record the memory
manager operations. -/
inductive Event where
  | activate (tpid tctx : Nat)
  | mapRangeCall (phys virt size : Nat)
  | zeroWords (base words : Nat)
  | handPage (addr : Nat)
  | reserveRange (start size : Nat)
  | unmapPage (addr : Nat)
deriving DecidableEq, Repr

/-- Process-table entry: parent pid and the heap-accounting fields of
`process.inner` used by the heap syscalls (spec §3). -/
structure Process where
  ppid : Nat
  mem_heap_base : Nat
  mem_heap_size : Nat
  mem_heap_max : Nat
deriving DecidableEq, Repr

/-- Server-registry entry (spec §3): owning pid, creation name, the
bounded FIFO of `(envelope, sender context)` pairs with its capacity,
the contexts currently able to accept a message immediately, and the
contexts parked awaiting a message. -/
structure Server where
  sid : Nat
  pid : Nat
  name : Nat
  queue : List (MessageEnvelope × Nat)
  capacity : Nat
  available : List Nat
  parked : List Nat
deriving DecidableEq, Repr

/-- Modelled from the spec: `take_next_message` (§4.4) dequeues the
oldest pending message of the server in FIFO order, or returns `none`
when the queue is empty. -/
def Server.take_next_message (srv : Server) : Option ((MessageEnvelope × Nat) × Server) :=
  match srv.queue with
  | [] => none
  | m :: rest => some (m, { srv with queue := rest })

/-- Modelled from the spec: `park_context` (§4.4) records the given
context as blocked awaiting the next message on this server. -/
def Server.park_context (srv : Server) (ctx : Nat) : Server :=
  { srv with parked := srv.parked ++ [ctx] }

/-- Modelled from the spec: `take_available_context` (§4.4) removes
and returns a context able to receive a message immediately, or
returns `none` when every receiver context is busy. -/
def Server.take_available_context (srv : Server) : Option Nat × Server :=
  match srv.available with
  | [] => (none, srv)
  | c :: rest => (some c, { srv with available := rest })

/-- Modelled from the spec: `queue_message` (§4.4) appends to the
server's bounded FIFO and fails with `QueueFull` when the queue is at
capacity. -/
def Server.queue_message (srv : Server) (env : MessageEnvelope) (ctx : Nat) :
    Except SysError Server :=
  if srv.queue.length ≥ srv.capacity then .error .QueueFull
  else .ok { srv with queue := srv.queue ++ [(env, ctx)] }

/-- Memory-manager state, modelled from the spec (§4.2): the bounds of
general-purpose main RAM, a bump allocator for fresh mappings, a free
page budget, the set of mapped page addresses, and the reserved heap
ranges. -/
structure MemoryManager where
  mainStart : Nat
  mainEnd : Nat
  nextFree : Nat
  freePages : Nat
  mapped : List Nat
  reserved : List (Nat × Nat)
deriving DecidableEq, Repr

/-- Modelled from the spec: `is_main_memory` (§4.2) tests whether an
address lies in general-purpose RAM. -/
def MemoryManager.is_main_memory (mm : MemoryManager) (addr : Nat) : Bool :=
  decide (mm.mainStart ≤ addr ∧ addr < mm.mainEnd)

/-- Modelled from the spec: `map_range` (§4.2) maps `size` bytes at
the requested virtual address (or at a fresh address when `virt` is
null), fails with `OutOfMemory` when no free pages remain, and returns
the mapped `MemoryRange` of exactly the requested size. -/
def MemoryManager.map_range (mm : MemoryManager) (_phys virt size _flags : Nat) :
    Except SysError (MemRange × MemoryManager) :=
  if size / PAGE_SIZE > mm.freePages then .error .OutOfMemory
  else
    let base := if virt ≠ 0 then virt else mm.nextFree
    .ok (⟨base, size⟩,
      { mm with
          nextFree := if virt ≠ 0 then mm.nextFree else wadd mm.nextFree size
          freePages := mm.freePages - size / PAGE_SIZE
          mapped := mm.mapped ++ stepBy base (base + size) PAGE_SIZE })

/-- Modelled from the spec: `reserve_range` (§4.2) records a reserved
heap range; its allocation-failure mode does not affect the heap-size
accounting performed in syscall.rs and is not modelled. -/
def MemoryManager.reserve_range (mm : MemoryManager) (start size _flags : Nat) :
    MemoryManager :=
  { mm with reserved := mm.reserved ++ [(start, size)] }

/-- Modelled from the spec: `unmap_page` (§4.2) removes one mapped
page; asking it to unmap a page that was never validly mapped fails,
which the dispatcher turns into a fatal `.expect` abort (spec §7). -/
def MemoryManager.unmap_page (mm : MemoryManager) (addr : Nat) : Option MemoryManager :=
  if addr ∈ mm.mapped then some { mm with mapped := mm.mapped.erase addr } else none

/-- Whole-kernel state threaded through the dispatcher: the calling
pid (`arch::current_pid()`), the calling context number
(`current_context_nr()`), the user address ceiling
(`arch::mem::USER_AREA_END`), the process table, the server registry,
the connection table mapping CID to SID, fresh-id counters, and the
memory manager. -/
structure KState where
  pid : Nat
  currentContextNr : Nat
  userAreaEnd : Nat
  processes : List (Nat × Process)
  servers : List Server
  connections : List (Nat × Nat)
  nextCtx : Nat
  nextSid : Nat
  nextCid : Nat
  mm : MemoryManager
deriving DecidableEq, Repr

/-- Modelled from the spec: `get_process` (§4.3) looks a process up by
pid in the process table. -/
def get_process (s : KState) (pid : Nat) : Option Process :=
  (s.processes.find? (fun p => p.1 = pid)).map (fun p => p.2)

/-- Modelled from the spec: `server_mut` (§4.4) looks a server up by
SID; the owning-pid check is performed by the dispatcher itself in
syscall.rs. -/
def server_mut (s : KState) (sid : Nat) : Option Server :=
  s.servers.find? (fun srv => srv.sid = sid)

/-- Modelled from the spec: `server_from_cid` (§4.4) resolves a
connection capability to its server, failing on a dangling handle. -/
def server_from_cid (s : KState) (cid : Nat) : Option Server :=
  match s.connections.find? (fun c => c.1 = cid) with
  | none => none
  | some c => server_mut s c.2

/-- Write an updated server back into the registry, keyed by its SID. -/
def updateServer (s : KState) (srv : Server) : KState :=
  { s with servers := s.servers.map (fun t => if t.sid = srv.sid then srv else t) }

/-- Write an updated process back into the process table. -/
def updateProcess (s : KState) (pid : Nat) (p : Process) : KState :=
  { s with processes := s.processes.map (fun t => if t.1 = pid then (pid, p) else t) }

/-- Modelled from the spec: `activate_process_context` (§4.3), the
single control-transfer primitive.  The register save/restore flags do
not affect any modelled observable; each invocation is recorded as an
`Event.activate` with its target, and it fails with `ProcessNotFound`
when the target process does not exist. -/
def activate_process_context (s : KState) (tpid tctx : Nat)
    (_saveCaller _resumeIsParent : Bool) :
    Except SysError Nat × KState × List Event :=
  match get_process s tpid with
  | some _ => (.ok tctx, s, [.activate tpid tctx])
  | none => (.error .ProcessNotFound, s, [.activate tpid tctx])

/-- The loop body of the `DecreaseHeap` arm: unmap each page of the
released range, aborting fatally (`.expect("unable to unmap page")`)
if a page was never validly mapped. -/
def unmapLoop (s : KState) (pages : List Nat) (evs : List Event) :
    SysOut × KState × List Event :=
  match pages with
  | [] => (.ok .Ok, s, evs)
  | p :: rest =>
    match s.mm.unmap_page p with
    | some mm' => unmapLoop { s with mm := mm' } rest (evs ++ [.unmapPage p])
    | none => (.panic ("unable to unmap page"), s, evs ++ [.unmapPage p])

/-- Syscall requests (`xous::SysCall`), one constructor per arm of the
dispatcher's match. -/
inductive SysCall where
  | MapMemory (phys virt size flags : Nat)
  | IncreaseHeap (delta flags : Nat)
  | DecreaseHeap (delta : Nat)
  | SwitchTo (tpid tctx : Nat)
  | ClaimInterrupt (no callback arg : Nat)
  | Yield
  | ReceiveMessage (sid : Nat)
  | WaitEvent
  | SpawnThread (entrypoint stack arg : Nat)
  | CreateServer (name : Nat)
  | Connect (sid : Nat)
  | SendMessage (cid : Nat) (message : Message)
deriving DecidableEq, Repr

/-- Translation of `handle` from src/kernel/src/syscall.rs: the
syscall dispatcher.  Returns the outcome, the kernel state at return
(or at the abort point for a fatal outcome), and the ordered trace of
internal events.  `println!` logging is a no-op and is not modelled. -/
def handle (s : KState) (call : SysCall) : SysOut × KState × List Event :=
  let pid := s.pid
  match call with
  | .MapMemory phys virt size flags =>
    -- Don't let the address exceed the user area (unless it's PID 1)
    if pid ≠ 1 ∧ virt ≠ 0 ∧ virt ≥ s.userAreaEnd then
      (.err .BadAddress, s, [])
    -- Don't allow mapping non-page values
    else if size % PAGE_SIZE ≠ 0 then
      (.err .BadAlignment, s, [])
    else
      match s.mm.map_range phys virt size flags with
      | .error e => (.err e, s, [.mapRangeCall phys virt size])
      | .ok (r, mm') =>
        let s1 := { s with mm := mm' }
        -- If we're handing back an address in main RAM, zero it out
        let zs : List Event :=
          if phys = 0 ∨ mm'.is_main_memory phys = true then
            [.zeroWords r.base (r.size / USIZE_BYTES)]
          else []
        let hs : List Event :=
          (stepBy r.base (r.base + r.size) PAGE_SIZE).map (fun a => .handPage a)
        (.ok (.MemoryRange r), s1, .mapRangeCall phys virt size :: zs ++ hs)
  | .IncreaseHeap delta flags =>
    if delta % 0x1000 ≠ 0 then (.err .BadAlignment, s, [])
    else
      match get_process s pid with
      | none => (.panic ("no current process"), s, [])
      | some process =>
        if wadd process.mem_heap_size delta > process.mem_heap_max then
          (.err .OutOfMemory, s, [])
        else
          let start := wadd process.mem_heap_base process.mem_heap_size
          let process' := { process with mem_heap_size := wadd process.mem_heap_size delta }
          let s1 := updateProcess s pid process'
          (.ok .Ok, { s1 with mm := s1.mm.reserve_range start delta flags },
            [.reserveRange start delta])
  | .DecreaseHeap delta =>
    if delta % 0x1000 ≠ 0 then (.err .BadAlignment, s, [])
    else
      match get_process s pid with
      | none => (.panic ("no current process"), s, [])
      | some process =>
        if wadd process.mem_heap_size delta > process.mem_heap_max then
          (.err .OutOfMemory, s, [])
        else
          let start := wadd process.mem_heap_base process.mem_heap_size
          let process' := { process with mem_heap_size := wsub process.mem_heap_size delta }
          let s1 := updateProcess s pid process'
          unmapLoop s1 (stepBy (wsub start delta) start PAGE_SIZE) []
  | .SwitchTo tpid tctx =>
    match activate_process_context s tpid tctx true false with
    | (.ok _, s', evs) => (.ok .ResumeProcess, s', evs)
    | (.error e, s', evs) => (.err e, s', evs)
  | .ClaimInterrupt _no _callback _arg =>
    -- interrupt-subsystem bookkeeping is out of core scope (spec §1);
    -- the dispatcher maps a successful claim to Ok
    (.ok .Ok, s, [])
  | .Yield =>
    match get_process s pid with
    | none => (.panic ("cant get current process"), s, [])
    | some process =>
      if process.ppid = 0 then (.panic ("no parent process id"), s, [])
      else
        match activate_process_context s process.ppid 0 true true with
        | (.ok _, s', evs) => (.ok .ResumeProcess, s', evs)
        | (.error _, s', evs) => (.err .ProcessNotFound, s', evs)
  | .ReceiveMessage sid =>
    let context_nr := s.currentContextNr
    match server_mut s sid with
    | none => (.err .ServerNotFound, s, [])
    | some server =>
      -- Ensure the server is for this PID
      if server.pid ≠ pid then (.err .ServerNotFound, s, [])
      else
        -- If there is a pending message, return it immediately.
        match server.take_next_message with
        | some (msg, server') => (.ok (.Message msg.1), updateServer s server', [])
        | none =>
          -- No pending message: park this context and return control
          -- to the parent process
          let s1 := updateServer s (server.park_context context_nr)
          match get_process s1 pid with
          | none => (.panic ("cant get current process"), s1, [])
          | some process =>
            if process.ppid = 0 then (.panic ("no parent process id"), s1, [])
            else
              match activate_process_context s1 process.ppid 0 false true with
              | (.ok _, s', evs) => (.ok .ResumeProcess, s', evs)
              | (.error _, s', evs) => (.err .ProcessNotFound, s', evs)
  | .WaitEvent =>
    match get_process s pid with
    | none => (.panic ("cant get current process"), s, [])
    | some process =>
      if process.ppid = 0 then (.panic ("no parent process id"), s, [])
      else
        match activate_process_context s process.ppid 0 false true with
        | (.ok _, s', evs) => (.ok .ResumeProcess, s', evs)
        | (.error _, s', evs) => (.err .ProcessNotFound, s', evs)
  | .SpawnThread _entrypoint _stack _arg =>
    -- Modelled from the spec: spawn_thread (§4.3) allocates a fresh
    -- context in the calling process and returns its id
    (.ok (.ThreadID s.nextCtx), { s with nextCtx := s.nextCtx + 1 }, [])
  | .CreateServer name =>
    -- Modelled from the spec: create_server (§4.4) fails with
    -- ServerExists when the name is already registered
    if s.servers.any (fun t => t.name = name) then (.err .ServerExists, s, [])
    else
      (.ok (.ServerID s.nextSid),
        { s with
            servers := s.servers ++ [⟨s.nextSid, pid, name, [], 8, [], []⟩]
            nextSid := s.nextSid + 1 }, [])
  | .Connect sid =>
    -- Modelled from the spec: connect_to_server (§4.4) hands out a
    -- fresh connection capability, failing on an unknown SID
    match server_mut s sid with
    | none => (.err .ServerNotFound, s, [])
    | some _ =>
      (.ok (.ConnectionID s.nextCid),
        { s with
            connections := s.connections ++ [(s.nextCid, sid)]
            nextCid := s.nextCid + 1 }, [])
  | .SendMessage cid message =>
    match server_from_cid s cid with
    | none => (.err .ServerNotFound, s, [])
    | some server =>
      match server.take_available_context with
      | (some _ctx_number, server') =>
        -- A context is available to receive the message right away.
        -- The source classifies the message as blocking or not, then
        -- binds the classification to an unused variable and falls
        -- through to the trailing Err(UnhandledSyscall)
        let s1 := updateServer s server'
        let _blocking :=
          match message with
          | .MutableBorrow _ | .ImmutableBorrow _ => true
          | .Scalar _ | .Move _ => false
        (.err .UnhandledSyscall, s1, [])
      | (none, server') =>
        -- No server context available: queue the message
        let s1 := updateServer s server'
        let context_nr := s1.currentContextNr
        match server_from_cid s1 cid with
        | none => (.err .ServerNotFound, s1, [])
        | some server2 =>
          match server2.queue_message ⟨0, message⟩ context_nr with
          | .error e => (.err e, s1, [])
          | .ok server3 =>
            -- the source's "park this context" is a comment only; the
            -- arm falls through to the trailing Err(UnhandledSyscall)
            (.err .UnhandledSyscall, updateServer s1 server3, [])

/-! Concrete kernel states used to exercise the dispatcher. -/

/-- Memory manager with main RAM at [0x40000000, 0x41000000), a fresh
allocation cursor and 100 free pages. -/
def exMM : MemoryManager := ⟨0x40000000, 0x41000000, 0x40100000, 100, [], []⟩

/-- Process table: root pid 1 (ppid 0), pid 2 and pid 3 children of
the root; pid 2 has heap base 0x10000000, size 0 and max 0x2000. -/
def exProcs : List (Nat × Process) :=
  [(1, ⟨0, 0, 0, 0⟩), (2, ⟨1, 0x10000000, 0, 0x2000⟩), (3, ⟨1, 0, 0, 0⟩)]

/-- Server 5, owned by pid 3, empty queue of capacity 8, no available
and no parked contexts. -/
def exSrv : Server := ⟨5, 3, 77, [], 8, [], []⟩

/-- Baseline state: caller pid 2 in context 4, user address ceiling
0x200000, one server (sid 5) reachable through connection cid 7. -/
def exS : KState := ⟨2, 4, 0x200000, exProcs, [exSrv], [(7, 5)], 10, 6, 8, exMM⟩

/-- Baseline state but the server has context 2 available to receive. -/
def exSAvail : KState := { exS with servers := [{ exSrv with available := [2] }] }

/-- Baseline state with the server's owner (pid 3) as the caller. -/
def exSOwn : KState := { exS with pid := 3 }

/-- Server owner as caller, one message pending in the queue. -/
def exSMsg : KState :=
  { exSOwn with servers := [{ exSrv with queue := [(⟨0, .Scalar 9⟩, 1)] }] }

/-- Root process (pid 1, ppid 0) as the caller. -/
def exSRoot : KState := { exS with pid := 1 }

/-- Server owner as caller, but that owner has ppid 0. -/
def exSRootOwn : KState := { exS with pid := 3, processes := [(3, ⟨0, 0, 0, 0⟩)] }

/-! Helper lemmas. -/

/-- Looking a SID up after writing back a server with the same SID
yields the written-back server. -/
theorem find_sid_update (l : List Server) (sid : Nat) (srv srv' : Server)
    (h : l.find? (fun t => t.sid = sid) = some srv) (h2 : srv'.sid = srv.sid) :
    (l.map (fun t => if t.sid = srv'.sid then srv' else t)).find?
      (fun t => t.sid = sid) = some srv' := by
  have hs : srv.sid = sid := by
    have := List.find?_some h
    simpa using this
  induction l with
  | nil => simp [List.find?] at h
  | cons a l ih =>
    by_cases ha : a.sid = sid
    · have : a = srv := by
        simp [List.find?, ha] at h
        exact h
      subst this
      simp [List.find?, ha, h2, hs]
    · have h' : l.find? (fun t => t.sid = sid) = some srv := by
        simpa [List.find?, ha] using h
      have hne : ¬ a.sid = srv'.sid := by
        rw [h2, hs]; exact ha
      simpa [List.find?, hne, ha] using ih h'

/-- Resolving a connection after writing back the server it points to
yields the written-back server. -/
theorem server_from_cid_update (s : KState) (cid : Nat) (srv srv' : Server)
    (h : server_from_cid s cid = some srv) (h2 : srv'.sid = srv.sid) :
    server_from_cid (updateServer s srv') cid = some srv' := by
  unfold server_from_cid at h ⊢
  cases hc : s.connections.find? (fun c => c.1 = cid) with
  | none => rw [hc] at h; exact absurd h (by simp)
  | some c =>
    rw [hc] at h
    simp only [updateServer]
    rw [hc]
    exact find_sid_update s.servers c.2 srv srv' h h2

/-! Claim C5. -/

/-- Claim C5: a MapMemory call by a non-root process (pid ≠ 1) with a
nonzero requested virtual address at or above the user address ceiling
returns BadAddress with no state change and no internal events; a call
by the root process (pid 1) is exempt from this check and never
produces BadAddress. -/
theorem C5_mapmemory_user_address_ceiling :
    (∀ (s : KState) (phys virt size flags : Nat),
      s.pid ≠ 1 → virt ≠ 0 → s.userAreaEnd ≤ virt →
        handle s (.MapMemory phys virt size flags) = (.err .BadAddress, s, [])) ∧
    (∀ (s : KState) (phys virt size flags : Nat),
      s.pid = 1 →
        (handle s (.MapMemory phys virt size flags)).1 ≠ .err .BadAddress) := by
  constructor
  · intro s phys virt size flags h1 h2 h3
    simp only [handle]
    rw [if_pos ⟨h1, h2, h3⟩]
  · intro s phys virt size flags h
    simp only [handle]
    rw [if_neg (by simp [h])]
    split
    · simp
    · cases hm : s.mm.map_range phys virt size flags with
      | error e =>
        have he : e = SysError.OutOfMemory := by
          simp only [MemoryManager.map_range] at hm
          split at hm
          · simpa using hm.symm
          · simp at hm
        simp [he]
      | ok v => simp

/-- Witness for C5 at concrete inputs: pid 2 requesting virt 0x300000
(at or above the ceiling 0x200000) gets BadAddress untouched, while
the root caller requesting the same address does not get BadAddress. -/
theorem C5_witness :
    handle exS (.MapMemory 0 0x300000 1 0) = (.err .BadAddress, exS, []) ∧
    (handle exSRoot (.MapMemory 0 0x300000 1 0)).1 ≠ .err .BadAddress :=
  ⟨C5_mapmemory_user_address_ceiling.1 exS 0 0x300000 1 0 (by decide)
      (by decide) (by decide),
   C5_mapmemory_user_address_ceiling.2 exSRoot 0 0x300000 1 0 (by decide)⟩

/-! Claim C4 (corrected). -/

/-- Counterexample to claim C4 as stated: a MapMemory call with size 1
(not a page multiple) made by pid 2 at virtual address 0x300000, at or
above the user ceiling 0x200000, returns BadAddress, not the
BadAlignment the claim promises for every unaligned size. -/
theorem C4_counterexample :
    (1 : Nat) % PAGE_SIZE ≠ 0 ∧
    handle exS (.MapMemory 0 0x300000 1 0) = (.err .BadAddress, exS, []) ∧
    SysOut.err .BadAddress ≠ SysOut.err .BadAlignment := by
  refine ⟨by decide, ?_, by decide⟩
  decide

/-- Claim C4 as amended: a MapMemory call whose size is not a page
multiple and which is not rejected first by the user-address-ceiling
check returns BadAlignment with the state unchanged and no internal
events (map_range is never invoked, no page is zeroed or handed over). -/
theorem C4_mapmemory_bad_alignment (s : KState) (phys virt size flags : Nat)
    (haddr : ¬(s.pid ≠ 1 ∧ virt ≠ 0 ∧ s.userAreaEnd ≤ virt))
    (hsize : size % PAGE_SIZE ≠ 0) :
    handle s (.MapMemory phys virt size flags) = (.err .BadAlignment, s, []) := by
  simp only [handle]
  rw [if_neg haddr, if_pos hsize]

/-- Witness for the amended C4: pid 2 mapping size 1 at the in-bounds
address 0x1000 gets BadAlignment with nothing mutated. -/
theorem C4_witness :
    handle exS (.MapMemory 0 0x1000 1 0) = (.err .BadAlignment, exS, []) :=
  C4_mapmemory_bad_alignment exS 0 0x1000 1 0 (by decide) (by decide)

/-! Claim C2 (code bug). -/

/-- Claim C2 evaluated at the failing input: pid 2 has heap_size 0 and
heap_max 0x2000, so the heap invariant holds before the call; the
page-aligned DecreaseHeap of 0x1000 passes the copy-pasted
`heap_size + delta > heap_max` guard, wraps heap_size to 0xfffff000
(which exceeds heap_max), and then aborts fatally trying to unmap a
page that was never mapped — the invariant 0 ≤ heap_size ≤ heap_max is
violated at the abort point. -/
theorem C2_decrease_heap_underflow :
    (0x1000 : Nat) % 0x1000 = 0 ∧
    get_process exS 2 = some ⟨1, 0x10000000, 0, 0x2000⟩ ∧
    (handle exS (.DecreaseHeap 0x1000)).1 = .panic ("unable to unmap page") ∧
    get_process (handle exS (.DecreaseHeap 0x1000)).2.1 2 =
      some ⟨1, 0x10000000, 0xfffff000, 0x2000⟩ ∧
    (0x2000 : Nat) < 0xfffff000 := by
  decide

/-! Claim C1 (code bug). -/

/-- Claim C1 evaluated at the failing input: connection cid 7 resolves
to server sid 5, which has receiver context 2 available, yet the
SendMessage call returns the error UnhandledSyscall, which is neither
ServerNotFound nor QueueFull and is not a success. -/
theorem C1_send_message_unhandled_syscall :
    server_from_cid exSAvail 7 = some { exSrv with available := [2] } ∧
    (handle exSAvail (.SendMessage 7 (.Scalar 42))).1 = .err .UnhandledSyscall ∧
    SysError.UnhandledSyscall ≠ .ServerNotFound ∧
    SysError.UnhandledSyscall ≠ .QueueFull := by
  decide

/-! Claim C3 (code bug). -/

/-- Claim C3 evaluated at the failing input: connection cid 7 resolves
to server sid 5 with no available receiver context and an empty queue.
The message is appended to the server's queue, but the sender's
context (number 4) is never parked (the parked list stays empty), no
control transfer to the parent happens (no activate event is emitted),
and the call returns the error UnhandledSyscall. -/
theorem C3_send_message_queues_without_parking :
    server_from_cid exS 7 = some exSrv ∧
    exSrv.available = [] ∧
    (handle exS (.SendMessage 7 (.Scalar 42))).1 = .err .UnhandledSyscall ∧
    server_mut (handle exS (.SendMessage 7 (.Scalar 42))).2.1 5 =
      some { exSrv with queue := [(⟨0, .Scalar 42⟩, 4)] } ∧
    (handle exS (.SendMessage 7 (.Scalar 42))).2.2 = [] := by
  decide

/-! Claim C10. -/

/-- Looking a SID up in a state after writing back a server with the
same SID yields the written-back server. -/
theorem server_mut_update (s : KState) (sid : Nat) (srv srv' : Server)
    (h : server_mut s sid = some srv) (h2 : srv'.sid = srv.sid) :
    server_mut (updateServer s srv') sid = some srv' :=
  find_sid_update s.servers sid srv srv' h h2

/-- A server resolved through a connection is found again when looked
up directly by its own SID. -/
theorem server_from_cid_sid (s : KState) (cid : Nat) (srv : Server)
    (h : server_from_cid s cid = some srv) :
    server_mut s srv.sid = some srv := by
  unfold server_from_cid at h
  cases hc : s.connections.find? (fun c => c.1 = cid) with
  | none => rw [hc] at h; exact absurd h (by simp)
  | some c =>
    rw [hc] at h
    have hsid : srv.sid = c.2 := by
      have := List.find?_some h
      simpa using this
    rw [hsid]
    exact h

/-- Claim C10: a SendMessage on a valid connection whose server has no
available receiver context and a non-full queue returns the error
UnhandledSyscall to the sender while having already appended the
message (sender tag 0, paired with the sender's context number) to the
server's queue — the error return is not atomic with respect to the
server-queue state. -/
theorem C10_send_message_mutates_on_error_path (s : KState) (cid : Nat)
    (m : Message) (srv : Server)
    (h1 : server_from_cid s cid = some srv)
    (h2 : srv.available = [])
    (h3 : srv.queue.length < srv.capacity) :
    (handle s (.SendMessage cid m)).1 = .err .UnhandledSyscall ∧
    server_mut (handle s (.SendMessage cid m)).2.1 srv.sid =
      some { srv with queue := srv.queue ++ [(⟨0, m⟩, s.currentContextNr)] } := by
  have hcid' : server_from_cid (updateServer s srv) cid = some srv :=
    server_from_cid_update s cid srv srv h1 rfl
  have hq : srv.queue_message ⟨0, m⟩ (updateServer s srv).currentContextNr =
      .ok { srv with queue := srv.queue ++ [(⟨0, m⟩, s.currentContextNr)] } := by
    unfold Server.queue_message
    rw [if_neg (Nat.not_le.mpr h3)]
    rfl
  simp only [handle, h1, Server.take_available_context, h2, hcid', hq]
  constructor
  · trivial
  · exact server_mut_update (updateServer s srv) srv.sid srv _
      (server_from_cid_sid (updateServer s srv) cid srv hcid') rfl

/-- Witness for C10: in the baseline state, SendMessage over cid 7
returns UnhandledSyscall and the message sits in server 5's queue. -/
theorem C10_witness :
    (handle exS (.SendMessage 7 (.Scalar 99))).1 = .err .UnhandledSyscall ∧
    server_mut (handle exS (.SendMessage 7 (.Scalar 99))).2.1 exSrv.sid =
      some { exSrv with queue := exSrv.queue ++ [(⟨0, .Scalar 99⟩, exS.currentContextNr)] } :=
  C10_send_message_mutates_on_error_path exS 7 (.Scalar 99) exSrv
    (by decide) (by decide) (by decide)

/-! Claim C9. -/

/-- Claim C9: when the named server exists, is owned by the calling
pid, and has a pending message, ReceiveMessage returns that message
immediately — the only state change is the popped queue (the parked
list is untouched, so the calling context is not parked) and the event
trace is empty, so activate_process_context is never invoked; when the
server exists but is owned by a different pid, the call returns
ServerNotFound with nothing changed. -/
theorem C9_receive_message_immediate :
    (∀ (s : KState) (sid : Nat) (srv : Server) (env : MessageEnvelope)
        (c : Nat) (rest : List (MessageEnvelope × Nat)),
      server_mut s sid = some srv → srv.pid = s.pid →
      srv.queue = (env, c) :: rest →
        handle s (.ReceiveMessage sid) =
          (.ok (.Message env), updateServer s { srv with queue := rest }, [])) ∧
    (∀ (s : KState) (sid : Nat) (srv : Server),
      server_mut s sid = some srv → srv.pid ≠ s.pid →
        handle s (.ReceiveMessage sid) = (.err .ServerNotFound, s, [])) := by
  constructor
  · intro s sid srv env c rest h1 h2 h3
    simp only [handle, h1, Server.take_next_message, h3]
    rw [if_neg (by simp [h2])]
  · intro s sid srv h1 h2
    simp only [handle, h1]
    rw [if_pos h2]

/-- Witness for C9: the owner (pid 3) receives the pending scalar
message immediately, and the non-owner (pid 2) gets ServerNotFound. -/
theorem C9_witness :
    handle exSMsg (.ReceiveMessage 5) =
      (.ok (.Message ⟨0, .Scalar 9⟩),
        updateServer exSMsg
          { exSrv with queue := ([] : List (MessageEnvelope × Nat)) }, []) ∧
    handle exS (.ReceiveMessage 5) = (.err .ServerNotFound, exS, []) :=
  ⟨C9_receive_message_immediate.1 exSMsg 5
      { exSrv with queue := [(⟨0, .Scalar 9⟩, 1)] } ⟨0, .Scalar 9⟩ 1 []
      (by decide) (by decide) (by decide),
   C9_receive_message_immediate.2 exS 5 exSrv (by decide) (by decide)⟩

/-! Claim C7. -/

/-- Claim C7: Yield, WaitEvent, and ReceiveMessage with no pending
message (server found, owned by the caller, empty queue), called by a
process whose ppid is nonzero, invoke the control-transfer primitive
activate_process_context exactly once, with the caller's parent pid as
the target and context 0 — the full event trace of the call is that
single activation, so no other process is ever targeted. -/
theorem C7_control_transfers_to_parent :
    (∀ (s : KState) (p : Process),
      get_process s s.pid = some p → p.ppid ≠ 0 →
        (handle s .Yield).2.2 = [.activate p.ppid 0]) ∧
    (∀ (s : KState) (p : Process),
      get_process s s.pid = some p → p.ppid ≠ 0 →
        (handle s .WaitEvent).2.2 = [.activate p.ppid 0]) ∧
    (∀ (s : KState) (p : Process) (sid : Nat) (srv : Server),
      get_process s s.pid = some p → p.ppid ≠ 0 →
      server_mut s sid = some srv → srv.pid = s.pid → srv.queue = [] →
        (handle s (.ReceiveMessage sid)).2.2 = [.activate p.ppid 0]) := by
  refine ⟨?_, ?_, ?_⟩
  · intro s p h1 h2
    simp only [handle, h1]
    rw [if_neg h2]
    unfold activate_process_context
    cases get_process s p.ppid <;> simp
  · intro s p h1 h2
    simp only [handle, h1]
    rw [if_neg h2]
    unfold activate_process_context
    cases get_process s p.ppid <;> simp
  · intro s p sid srv h1 h2 h3 h4 h5
    have h1' : ∀ t : Server, get_process (updateServer s t) s.pid = some p := fun _ => h1
    simp only [handle, h3, Server.take_next_message, h5]
    rw [if_neg (by simp [h4])]
    simp only [h1']
    rw [if_neg h2]
    unfold activate_process_context
    cases hp : get_process (updateServer s (srv.park_context s.currentContextNr)) p.ppid <;> simp

/-- Witness for C7: pid 2 (parent 1) yielding, waiting, and the owner
pid 3 (parent 1) receiving on an empty queue each produce exactly one
activation of the parent, pid 1. -/
theorem C7_witness :
    (handle exS .Yield).2.2 = [.activate 1 0] ∧
    (handle exS .WaitEvent).2.2 = [.activate 1 0] ∧
    (handle exSOwn (.ReceiveMessage 5)).2.2 = [.activate 1 0] :=
  ⟨C7_control_transfers_to_parent.1 exS ⟨1, 0x10000000, 0, 0x2000⟩
      (by decide) (by decide),
   C7_control_transfers_to_parent.2.1 exS ⟨1, 0x10000000, 0, 0x2000⟩
      (by decide) (by decide),
   C7_control_transfers_to_parent.2.2 exSOwn ⟨1, 0, 0, 0⟩ 5 exSrv
      (by decide) (by decide) (by decide) (by decide) (by decide)⟩

/-! Claim C8. -/

/-- Claim C8: Yield, WaitEvent, and blocking ReceiveMessage (server
found, owned by the caller, empty queue) called by a process whose
ppid is 0 all hit the assert_ne fatal invariant path: the outcome is
the kernel abort with the assertion's message, never an ordinary ok or
err value. -/
theorem C8_root_yield_is_fatal :
    (∀ (s : KState) (p : Process),
      get_process s s.pid = some p → p.ppid = 0 →
        (handle s .Yield).1 = .panic ("no parent process id")) ∧
    (∀ (s : KState) (p : Process),
      get_process s s.pid = some p → p.ppid = 0 →
        (handle s .WaitEvent).1 = .panic ("no parent process id")) ∧
    (∀ (s : KState) (p : Process) (sid : Nat) (srv : Server),
      get_process s s.pid = some p → p.ppid = 0 →
      server_mut s sid = some srv → srv.pid = s.pid → srv.queue = [] →
        (handle s (.ReceiveMessage sid)).1 = .panic ("no parent process id")) := by
  refine ⟨?_, ?_, ?_⟩
  · intro s p h1 h2
    simp only [handle, h1]
    rw [if_pos h2]
  · intro s p h1 h2
    simp only [handle, h1]
    rw [if_pos h2]
  · intro s p sid srv h1 h2 h3 h4 h5
    have h1' : ∀ t : Server, get_process (updateServer s t) s.pid = some p := fun _ => h1
    simp only [handle, h3, Server.take_next_message, h5]
    rw [if_neg (by simp [h4])]
    simp only [h1']
    rw [if_pos h2]

/-- Witness for C8: the root process (pid 1, ppid 0) calling Yield or
WaitEvent, and a server owner with ppid 0 calling ReceiveMessage on an
empty queue, each abort fatally. -/
theorem C8_witness :
    (handle exSRoot .Yield).1 = .panic ("no parent process id") ∧
    (handle exSRoot .WaitEvent).1 = .panic ("no parent process id") ∧
    (handle exSRootOwn (.ReceiveMessage 5)).1 = .panic ("no parent process id") :=
  ⟨C8_root_yield_is_fatal.1 exSRoot ⟨0, 0, 0, 0⟩ (by decide) (by decide),
   C8_root_yield_is_fatal.2.1 exSRoot ⟨0, 0, 0, 0⟩ (by decide) (by decide),
   C8_root_yield_is_fatal.2.2 exSRootOwn ⟨0, 0, 0, 0⟩ 5 exSrv
      (by decide) (by decide) (by decide) (by decide) (by decide)⟩

/-! Claim C6. -/

/-- A byte address is covered by some zeroing write in the event
trace: `zeroWords b n` zeroes the `n * USIZE_BYTES` bytes starting at
`b`. -/
def byteZeroed (evs : List Event) (a : Nat) : Prop :=
  ∃ b n, Event.zeroWords b n ∈ evs ∧ b ≤ a ∧ a < b + n * USIZE_BYTES

/-- Membership in the page-stepping loop: every multiple-of-step
offset strictly inside the range is visited. -/
theorem mem_stepBy (lo hi step i : Nat) (hstep : 0 < step)
    (h : lo + i * step < hi) : lo + i * step ∈ stepBy lo hi step := by
  unfold stepBy
  refine List.mem_map.mpr ⟨i, List.mem_range.mpr ?_, rfl⟩
  have h2 : (i + 1) * step ≤ hi - lo + step - 1 := by
    have he : (i + 1) * step = i * step + step := by ring
    omega
  have h3 := (Nat.le_div_iff_mul_le hstep).mpr h2
  omega

/-- Claim C6: a MapMemory call that succeeds with a memory range
backed by general-purpose RAM (null physical address or an address in
main memory) zero-fills every byte of the returned range and hands
every page of the range to the calling process before the result is
returned: the call's own event trace contains a zeroing write covering
each byte and a hand_page_to_user event for each page of the range. -/
theorem C6_mapmemory_zero_fill_and_hand_pages (s : KState)
    (phys virt size flags : Nat) (r : MemRange)
    (h1 : (handle s (.MapMemory phys virt size flags)).1 = .ok (.MemoryRange r))
    (h2 : phys = 0 ∨ s.mm.is_main_memory phys = true) :
    (∀ a, r.base ≤ a → a < r.base + r.size →
      byteZeroed (handle s (.MapMemory phys virt size flags)).2.2 a) ∧
    (∀ k, k * PAGE_SIZE < r.size →
      Event.handPage (r.base + k * PAGE_SIZE) ∈
        (handle s (.MapMemory phys virt size flags)).2.2) := by
  simp only [handle] at h1 ⊢
  by_cases hc1 : s.pid ≠ 1 ∧ virt ≠ 0 ∧ s.userAreaEnd ≤ virt
  · rw [if_pos hc1] at h1; exact absurd h1 (by simp)
  rw [if_neg hc1] at h1 ⊢
  by_cases hc2 : size % PAGE_SIZE ≠ 0
  · rw [if_pos hc2] at h1; exact absurd h1 (by simp)
  rw [if_neg hc2] at h1 ⊢
  cases hm : s.mm.map_range phys virt size flags with
  | error e =>
    rw [hm] at h1
    exact absurd h1 (by simp)
  | ok v =>
    obtain ⟨r0, mm'⟩ := v
    rw [hm] at h1
    simp only at h1 ⊢
    simp only [SysOut.ok.injEq, SysResult.MemoryRange.injEq] at h1
    subst h1
    -- extract the shape of the map_range result
    simp only [MemoryManager.map_range] at hm
    split at hm
    · exact absurd hm (by simp)
    · simp only [Except.ok.injEq, Prod.mk.injEq] at hm
      obtain ⟨hr0, hmm'⟩ := hm
      have hmain : mm'.is_main_memory phys = s.mm.is_main_memory phys := by
        rw [← hmm']
        simp [MemoryManager.is_main_memory]
      have hcond : phys = 0 ∨ mm'.is_main_memory phys = true := by
        rw [hmain]; exact h2
      rw [if_pos hcond]
      have hr0size : r0.size = size := by rw [← hr0]
      have hdvd : (4 : Nat) ∣ size := by
        have hp : PAGE_SIZE ∣ size :=
          Nat.dvd_of_mod_eq_zero (by omega)
        exact dvd_trans (by norm_num [PAGE_SIZE]) hp
      constructor
      · intro a ha1 ha2
        refine ⟨r0.base, r0.size / USIZE_BYTES, ?_, ha1, ?_⟩
        · simp
        · have : r0.size / USIZE_BYTES * USIZE_BYTES = r0.size := by
            rw [hr0size]
            exact Nat.div_mul_cancel hdvd
          rw [Nat.mul_comm] at this ⊢
          omega
      · intro k hk
        have hmem : r0.base + k * PAGE_SIZE ∈
            stepBy r0.base (r0.base + r0.size) PAGE_SIZE := by
          apply mem_stepBy
          · norm_num [PAGE_SIZE]
          · omega
        exact List.mem_append_right _ (List.mem_map.mpr ⟨_, hmem, rfl⟩)

/-- Witness for C6: mapping two fresh RAM pages in the baseline state
succeeds at base 0x40100000; byte 0x40100005 of the returned range is
covered by the zeroing write and the second page 0x40101000 is handed
to the caller. -/
theorem C6_witness :
    byteZeroed (handle exS (.MapMemory 0 0 0x2000 0)).2.2 0x40100005 ∧
    Event.handPage (0x40100000 + 1 * PAGE_SIZE) ∈
      (handle exS (.MapMemory 0 0 0x2000 0)).2.2 :=
  ⟨(C6_mapmemory_zero_fill_and_hand_pages exS 0 0 0x2000 0
      ⟨0x40100000, 0x2000⟩ (by decide) (Or.inl rfl)).1 0x40100005
      (by decide) (by decide),
   (C6_mapmemory_zero_fill_and_hand_pages exS 0 0 0x2000 0
      ⟨0x40100000, 0x2000⟩ (by decide) (Or.inl rfl)).2 1 (by decide)⟩

end Xous
